import Mathlib

/-!
Verification of the in-memory query engine and table-state hook of the
Geo-Data-Dashboard repository.

The embedding below is a shallow model of:
  * `src/data/mockApi.ts`   — the query engine `fetchProjects` (filter, sort,
    paginate over the cached record store) and the cached `getMockData` store;
  * `src/hooks/useTableData.ts` — the orchestrator hook: `loadData`,
    `handleSearch`, `handleSort`, `handlePageChange`, `handleRowSelect`.

Modelling choices (each noted at the definition it concerns):
  * JS strings are Lean `String`; `toLowerCase` is an ASCII-wise character map
    (the repository data is ASCII); `trim` drops whitespace at both ends;
    `includes` is contiguous-substring containment.
  * `localeCompare` is modelled as the sign of the lexicographic linear order
    on `String` (sign-accurate three-way comparison, which is all the engine
    uses of it).
  * JS numbers for `latitude`/`longitude` are modelled as `Int`: the source
    fixes coordinates to 6 decimal places, so a micro-degree integer scaling
    represents them; the engine only subtracts them for comparator signs.
  * The `status` union type is modelled as `String`, which is how both the
    filter (`status.toLowerCase().includes`) and the sort (string branch)
    treat it.
  * JS `Array.prototype.sort` with a comparator `c` is a stable sort by the
    boolean relation `c a b ≤ 0`; it is modelled by `List.mergeSort`, which is
    stable.
  * The mutable module-level cache `cachedData` is modelled by explicit state
    passing (`ApiState`); `Math.random` generation is abstracted as a
    parameter `gen` standing for the output of `generateMockData`.
-/

/-- One geographic record, from `src/types/index.ts` (`GeoProject`). -/
structure GeoProject where
  id : String
  projectName : String
  latitude : Int
  longitude : Int
  status : String
  lastUpdated : String
deriving DecidableEq, Repr

/-- The shape of a `fetchProjects` response, from `src/types/index.ts`
(`ApiResponse`). -/
structure ApiResponse where
  data : List GeoProject
  total : Nat
  page : Nat
  pageSize : Nat
deriving DecidableEq, Repr

/-- The sortable column keys (`keyof GeoProject` in the source). -/
inductive SortKey where
  | id
  | projectName
  | latitude
  | longitude
  | status
  | lastUpdated
deriving DecidableEq, Repr

/-- `'asc' | 'desc'` in the source. -/
inductive SortOrder where
  | asc
  | desc
deriving DecidableEq, Repr

/-- Model of JS `String.prototype.toLowerCase` (ASCII-wise character map;
`Char.toLower` lowers exactly the ASCII uppercase letters, which covers the
repository data). -/
def toLowerStr (s : String) : String :=
  String.mk (s.data.map Char.toLower)

/-- Model of JS `String.prototype.trim`: drop whitespace from both ends. -/
def trimStr (s : String) : String :=
  String.mk (((s.data.dropWhile Char.isWhitespace).reverse.dropWhile Char.isWhitespace).reverse)

/-- Model of JS `haystack.includes(needle)`: contiguous substring
containment. -/
def strIncludes (s sub : String) : Bool :=
  decide (sub.data <:+: s.data)

/-- The filter predicate from `fetchProjects` (mockApi.ts lines 68–72):
a record matches when the already-lowercased filter text occurs in its
lowercased `projectName`, `status` or `id`. -/
def matchesFilter (filt : String) (p : GeoProject) : Bool :=
  strIncludes (toLowerStr p.projectName) filt ||
  strIncludes (toLowerStr p.status) filt ||
  strIncludes (toLowerStr p.id) filt

/-- The filtering step of `fetchProjects` (mockApi.ts lines 66–73):
`if (filterText?.trim()) { const filter = filterText.toLowerCase();
data = data.filter(...) }`.  An absent or whitespace-only filter leaves the
data unchanged. -/
def filterStep (filterText : Option String) (l : List GeoProject) : List GeoProject :=
  match filterText with
  | none => l
  | some ft =>
    if trimStr ft = "" then l
    else l.filter (matchesFilter (toLowerStr ft))

/-- Model of JS `a.localeCompare(b)`: a three-way comparison returning a
negative, zero or positive number.  Modelled sign-accurately by the
lexicographic linear order on `String`. -/
def localeCompare (a b : String) : Int :=
  if a < b then -1 else if b < a then 1 else 0

/-- The string branch of the comparator in `fetchProjects`
(mockApi.ts lines 81–85): ascending order compares `a` to `b`, anything else
(including an absent `sortOrder`) compares `b` to `a`. -/
def strCmpOrd (sortOrder : Option SortOrder) (x y : String) : Int :=
  if sortOrder = some SortOrder.asc then localeCompare x y else localeCompare y x

/-- The numeric branch of the comparator in `fetchProjects`
(mockApi.ts lines 87–89): ascending order returns `a - b`, anything else
returns `b - a`. -/
def numCmpOrd (sortOrder : Option SortOrder) (x y : Int) : Int :=
  if sortOrder = some SortOrder.asc then x - y else y - x

/-- The full comparator passed to `sort` in `fetchProjects`
(mockApi.ts lines 77–90): string fields go through `localeCompare`, numeric
fields through subtraction, with the argument order controlled by
`sortOrder`. -/
def projCmp (sortBy : SortKey) (sortOrder : Option SortOrder) (a b : GeoProject) : Int :=
  match sortBy with
  | SortKey.id => strCmpOrd sortOrder a.id b.id
  | SortKey.projectName => strCmpOrd sortOrder a.projectName b.projectName
  | SortKey.latitude => numCmpOrd sortOrder a.latitude b.latitude
  | SortKey.longitude => numCmpOrd sortOrder a.longitude b.longitude
  | SortKey.status => strCmpOrd sortOrder a.status b.status
  | SortKey.lastUpdated => strCmpOrd sortOrder a.lastUpdated b.lastUpdated

/-- The sorting step of `fetchProjects` (mockApi.ts lines 76–91):
`if (sortBy) { data = [...data].sort(comparator) }`.  JS `sort` is a stable
sort ordering by `comparator a b ≤ 0`; it is modelled by the stable
`List.mergeSort`.  No sort key leaves the data unchanged. -/
def sortStep (sortBy : Option SortKey) (sortOrder : Option SortOrder)
    (l : List GeoProject) : List GeoProject :=
  match sortBy with
  | none => l
  | some k => l.mergeSort (fun a b => decide (projCmp k sortOrder a b ≤ 0))

/-- The query engine `fetchProjects` (mockApi.ts lines 53–106), with the
cached store passed explicitly and the artificial 300 ms delay elided:
filter, then sort, then slice `[(page-1)*pageSize, page*pageSize)`
(JS `slice` clips to the available length), returning the page together with
the filtered total.  `page ≥ 1` per the `QueryParams` data model. -/
def fetchProjects (store : List GeoProject) (page pageSize : Nat)
    (sortBy : Option SortKey) (sortOrder : Option SortOrder)
    (filterText : Option String) : ApiResponse :=
  let filtered := filterStep filterText store
  let sorted := sortStep sortBy sortOrder filtered
  let startIdx := (page - 1) * pageSize
  let paginatedData := (sorted.drop startIdx).take pageSize
  { data := paginatedData, total := sorted.length, page := page, pageSize := pageSize }

/-- The module-level mutable state of `mockApi.ts`
(`let cachedData: GeoProject[] | null = null`, line 44),
modelled by explicit state passing. -/
structure ApiState where
  cachedData : Option (List GeoProject)
deriving DecidableEq, Repr

/-- `getMockData` (mockApi.ts lines 46–51): return the cache, generating it
on first access.  `gen` stands for the (random) output of
`generateMockData`. -/
def getMockData (gen : List GeoProject) (s : ApiState) : List GeoProject × ApiState :=
  match s.cachedData with
  | some d => (d, s)
  | none => (gen, { cachedData := some gen })

/-- `fetchProjects` as a transformer of the module state: read (or create)
the cached store, then run the pure query.  The filter creates a new array
and the sort operates on a spread copy (`[...data]`), so the store itself is
only ever read. -/
def fetchProjectsM (gen : List GeoProject) (page pageSize : Nat)
    (sortBy : Option SortKey) (sortOrder : Option SortOrder)
    (filterText : Option String) (s : ApiState) : ApiResponse × ApiState :=
  let storeAndState := getMockData gen s
  (fetchProjects storeAndState.1 page pageSize sortBy sortOrder filterText, storeAndState.2)

/-- `TableState` from `src/types/index.ts`: the query parameters owned by the
hook.  `sortBy` is `keyof GeoProject | null`; `sortOrder` is always set. -/
structure TableState where
  page : Nat
  pageSize : Nat
  sortBy : Option SortKey
  sortOrder : SortOrder
  filterText : String
deriving DecidableEq, Repr

/-- The full state of the `useTableData` hook (useTableData.ts lines 5–16):
fetched page `data`, `loading` flag, `total`, query `state`, and the single
optional `selectedId`. -/
structure HookState where
  data : List GeoProject
  loading : Bool
  total : Nat
  state : TableState
  selectedId : Option String
deriving DecidableEq, Repr

/-- `loadData` (useTableData.ts lines 18–34): fetch with the current `page`,
`pageSize`, `sortBy || undefined` and `sortOrder` — note that
`state.filterText` is NOT passed, so the engine receives an absent filter —
then store the response page and total.  The transient `loading` toggle ends
at `false`. -/
def loadData (store : List GeoProject) (s : HookState) : HookState :=
  let response := fetchProjects store s.state.page s.state.pageSize
    s.state.sortBy (some s.state.sortOrder) none
  { s with data := response.data, total := response.total, loading := false }

/-- `handleSearch` (useTableData.ts lines 36–42): set `filterText` and reset
`page` to 1. -/
def handleSearch (text : String) (s : HookState) : HookState :=
  { s with state := { s.state with filterText := text, page := 1 } }

/-- `handleSort` (useTableData.ts lines 44–51): set `sortBy` to the clicked
column (the source ternary `prev.sortBy === column ? column : column` always
yields `column`), toggle `sortOrder` when re-clicking the ascending column,
and reset `page` to 1. -/
def handleSort (column : SortKey) (s : HookState) : HookState :=
  { s with state := { s.state with
      sortBy := some column,
      sortOrder :=
        if s.state.sortBy = some column ∧ s.state.sortOrder = SortOrder.asc
        then SortOrder.desc else SortOrder.asc,
      page := 1 } }

/-- `handlePageChange` (useTableData.ts lines 53–58): set `page`; no other
field of the hook state is touched. -/
def handlePageChange (page : Nat) (s : HookState) : HookState :=
  { s with state := { s.state with page := page } }

/-- `handlePageSizeChange` (useTableData.ts lines 60–66): set `pageSize` and
reset `page` to 1. -/
def handlePageSizeChange (pageSize : Nat) (s : HookState) : HookState :=
  { s with state := { s.state with pageSize := pageSize, page := 1 } }

/-- `handleRowSelect` (useTableData.ts lines 68–70), used for both row clicks
and map-marker clicks: overwrite the single `selectedId`. -/
def handleRowSelect (id : String) (s : HookState) : HookState :=
  { s with selectedId := some id }

/-! Concrete demonstration data, shaped like the generated records of
`generateMockData` (mockApi.ts lines 6–41), used to instantiate the
universally quantified theorems below. -/

/-- A concrete record in the shape produced by `generateMockData`. -/
def demoP1 : GeoProject :=
  { id := "project-1", projectName := "Solar Farm Alpha 1", latitude := 10500000,
    longitude := 20250000, status := "Active", lastUpdated := "2026-01-01" }

/-- A second concrete record, not matching the filter text of `demoFilter`. -/
def demoP2 : GeoProject :=
  { id := "project-2", projectName := "Wind Energy Beta 1", latitude := -5000000,
    longitude := 7000000, status := "Pending", lastUpdated := "2026-01-02" }

/-- A two-record store. -/
def demoStore : List GeoProject := [demoP1, demoP2]

/-- A concrete filter text with non-empty trim. -/
def demoFilter : String := "solar"

/-- A whitespace-only filter text. -/
def demoBlank : String := "   "

/-- A concrete id. -/
def demoIdA : String := "project-1"

/-- Another concrete id. -/
def demoIdB : String := "project-2"

/-- A store with exactly 5000 records, the record count of
`generateMockData` (mockApi.ts line 26). -/
def demoStore5000 : List GeoProject := List.replicate 5000 demoP1

/-- A concrete module state whose cache is already populated. -/
def demoApiState : ApiState := { cachedData := some demoStore }

/-- A concrete initial table state, matching the hook initialisation
(useTableData.ts lines 9–15). -/
def demoTable : TableState :=
  { page := 1, pageSize := 50, sortBy := none, sortOrder := SortOrder.asc,
    filterText := "" }

/-- A concrete hook state with a record selected. -/
def demoHook : HookState :=
  { data := demoStore, loading := false, total := 2, state := demoTable,
    selectedId := some demoIdA }

/-- The same hook state with a different filter text and no selection. -/
def demoHookFiltered : HookState :=
  { data := demoStore, loading := false, total := 2,
    state := { demoTable with filterText := demoFilter }, selectedId := none }

/-! ## Theorems -/

/-- C3: `loadData` invokes `fetchProjects` without passing
`state.filterText`; consequently two hook states that agree on `page`,
`pageSize`, `sortBy` and `sortOrder` — however their `filterText` differs —
produce identical fetched `data` and identical `total`. -/
theorem loadData_independent_of_filterText (store : List GeoProject)
    (s1 s2 : HookState)
    (hp : s1.state.page = s2.state.page)
    (hps : s1.state.pageSize = s2.state.pageSize)
    (hsb : s1.state.sortBy = s2.state.sortBy)
    (hso : s1.state.sortOrder = s2.state.sortOrder) :
    (loadData store s1).data = (loadData store s2).data ∧
    (loadData store s1).total = (loadData store s2).total := by
  unfold loadData
  rw [hp, hps, hsb, hso]
  exact ⟨rfl, rfl⟩

/-- Witness for C3 at concrete states differing only in `filterText` (and
selection): the fetched page and total coincide. -/
theorem loadData_independent_of_filterText_witness :
    (loadData demoStore demoHook).data = (loadData demoStore demoHookFiltered).data ∧
    (loadData demoStore demoHook).total = (loadData demoStore demoHookFiltered).total :=
  loadData_independent_of_filterText demoStore demoHook demoHookFiltered rfl rfl rfl rfl

/-- C6: selecting record `A` and then record `B` (via `handleRowSelect`,
shared by row clicks and marker clicks) leaves exactly `B` selected; the
selection is a single optional id, so at most one record is selected
system-wide, and when `A ≠ B` the first selection is gone. -/
theorem handleRowSelect_single_selection (s : HookState) (a b : String) :
    (handleRowSelect b (handleRowSelect a s)).selectedId = some b ∧
    (a ≠ b → (handleRowSelect b (handleRowSelect a s)).selectedId ≠ some a) := by
  refine ⟨rfl, fun hab hcontra => hab ?_⟩
  have hb : some b = some a := hcontra
  exact (Option.some.inj hb).symm

/-- Witness for C6 at two concrete distinct ids. -/
theorem handleRowSelect_single_selection_witness :
    (handleRowSelect demoIdB (handleRowSelect demoIdA demoHook)).selectedId = some demoIdB ∧
    (handleRowSelect demoIdB (handleRowSelect demoIdA demoHook)).selectedId ≠ some demoIdA :=
  ⟨(handleRowSelect_single_selection demoHook demoIdA demoIdB).1,
   (handleRowSelect_single_selection demoHook demoIdA demoIdB).2 (by decide)⟩

/-- C7: both `handleSearch` (changing `filterText`) and `handleSort`
(changing `sortBy`/`sortOrder`) reset `page` to 1, whatever the previous
state was. -/
theorem page_reset_on_search_and_sort (s : HookState) (text : String) (col : SortKey) :
    (handleSearch text s).state.page = 1 ∧ (handleSort col s).state.page = 1 :=
  ⟨rfl, rfl⟩

/-- C8 counterexample: in a concrete state with `project-1` selected,
`handlePageChange 2` does NOT clear the selection — `selectedId` is still
`some "project-1"`, not `none`, refuting the claim that a page change leaves
the selection `null`. -/
theorem handlePageChange_does_not_clear_selection :
    ¬ (handlePageChange 2 demoHook).selectedId = none := by
  decide

/-- C8 amended: `handlePageChange` leaves `selectedId` exactly as it was —
selection persists across page changes (it merely stops being visible when
the newly fetched page no longer contains the selected record). -/
theorem handlePageChange_preserves_selection (page : Nat) (s : HookState) :
    (handlePageChange page s).selectedId = s.selectedId :=
  rfl

theorem localeCompare_swap (x y : String) : localeCompare x y = - localeCompare y x := by
  unfold localeCompare
  rcases lt_trichotomy x y with h | h | h
  · rw [if_pos h, if_neg (lt_asymm h), if_pos h]
  · subst h
    simp
  · rw [if_neg (lt_asymm h), if_pos h, if_pos h]
    decide

theorem localeCompare_nonpos_iff (x y : String) : localeCompare x y ≤ 0 ↔ x ≤ y := by
  unfold localeCompare
  rcases lt_trichotomy x y with h | h | h
  · simp [h, le_of_lt h]
  · subst h
    simp
  · simp [lt_asymm h, h, not_le.mpr h]

theorem strCmpOrd_swap (ord : Option SortOrder) (x y : String) :
    strCmpOrd ord x y = - strCmpOrd ord y x := by
  unfold strCmpOrd
  split_ifs <;> exact localeCompare_swap _ _

theorem numCmpOrd_swap (ord : Option SortOrder) (x y : Int) :
    numCmpOrd ord x y = - numCmpOrd ord y x := by
  unfold numCmpOrd
  split_ifs <;> omega

theorem projCmp_swap (k : SortKey) (ord : Option SortOrder) (a b : GeoProject) :
    projCmp k ord a b = - projCmp k ord b a := by
  cases k <;>
    simp only [projCmp] <;>
    first
      | exact strCmpOrd_swap _ _ _
      | exact numCmpOrd_swap _ _ _

theorem strCmpOrd_nonpos_trans (ord : Option SortOrder) (x y z : String)
    (h1 : strCmpOrd ord x y ≤ 0) (h2 : strCmpOrd ord y z ≤ 0) : strCmpOrd ord x z ≤ 0 := by
  unfold strCmpOrd at h1 h2 ⊢
  split_ifs at h1 h2 ⊢ with hc
  · rw [localeCompare_nonpos_iff] at h1 h2 ⊢
    exact le_trans h1 h2
  · rw [localeCompare_nonpos_iff] at h1 h2 ⊢
    exact le_trans h2 h1

theorem numCmpOrd_nonpos_trans (ord : Option SortOrder) (x y z : Int)
    (h1 : numCmpOrd ord x y ≤ 0) (h2 : numCmpOrd ord y z ≤ 0) : numCmpOrd ord x z ≤ 0 := by
  unfold numCmpOrd at h1 h2 ⊢
  split_ifs at h1 h2 ⊢ <;> omega

theorem projCmp_nonpos_trans (k : SortKey) (ord : Option SortOrder) (a b c : GeoProject)
    (h1 : projCmp k ord a b ≤ 0) (h2 : projCmp k ord b c ≤ 0) : projCmp k ord a c ≤ 0 := by
  cases k <;>
    simp only [projCmp] at h1 h2 ⊢ <;>
    first
      | exact strCmpOrd_nonpos_trans _ _ _ _ h1 h2
      | exact numCmpOrd_nonpos_trans _ _ _ _ h1 h2

theorem projCmp_nonpos_total (k : SortKey) (ord : Option SortOrder) (a b : GeoProject) :
    projCmp k ord a b ≤ 0 ∨ projCmp k ord b a ≤ 0 := by
  have h := projCmp_swap k ord a b
  omega

theorem sortLe_trans (k : SortKey) (ord : Option SortOrder) :
    ∀ a b c : GeoProject, decide (projCmp k ord a b ≤ 0) = true →
      decide (projCmp k ord b c ≤ 0) = true → decide (projCmp k ord a c ≤ 0) = true := by
  intro a b c h1 h2
  simp only [decide_eq_true_eq] at h1 h2 ⊢
  exact projCmp_nonpos_trans k ord a b c h1 h2

theorem sortLe_total (k : SortKey) (ord : Option SortOrder) :
    ∀ a b : GeoProject,
      (decide (projCmp k ord a b ≤ 0) || decide (projCmp k ord b a ≤ 0)) = true := by
  intro a b
  rcases projCmp_nonpos_total k ord a b with h | h <;> simp [h]

theorem strCmpOrd_desc_asc (x y : String) :
    strCmpOrd (some SortOrder.desc) x y = - strCmpOrd (some SortOrder.asc) x y := by
  unfold strCmpOrd
  simp only [reduceCtorEq, if_false, if_true, Option.some.injEq]
  exact localeCompare_swap y x

theorem numCmpOrd_desc_asc (x y : Int) :
    numCmpOrd (some SortOrder.desc) x y = - numCmpOrd (some SortOrder.asc) x y := by
  unfold numCmpOrd
  simp only [reduceCtorEq, if_false, if_true, Option.some.injEq]
  omega

/-- C4: for every known sort key the sort step of `fetchProjects` sorts
stably by that key: the output is a permutation of the input, it is ordered
by the code comparator `projCmp` (strings via the `localeCompare` model,
numbers via subtraction), `sortOrder = desc` reverses the ascending
comparator result, ordered pairs of the input stay in order in the output
(stability), and with no sort key the insertion order is preserved
unchanged. -/
theorem sortStep_sorts_stably (k : SortKey) (ord : Option SortOrder) (l : List GeoProject) :
    (sortStep (some k) ord l).Perm l ∧
    List.Pairwise (fun a b => projCmp k ord a b ≤ 0) (sortStep (some k) ord l) ∧
    (∀ a b : GeoProject,
      projCmp k (some SortOrder.desc) a b = - projCmp k (some SortOrder.asc) a b) ∧
    (∀ a b : GeoProject, projCmp k ord a b ≤ 0 → [a, b].Sublist l →
      [a, b].Sublist (sortStep (some k) ord l)) ∧
    sortStep none ord l = l := by
  refine ⟨List.mergeSort_perm l _, ?_, ?_, ?_, rfl⟩
  · exact (List.sorted_mergeSort (sortLe_trans k ord) (sortLe_total k ord) l).imp
      (fun h => of_decide_eq_true h)
  · intro a b
    cases k <;>
      first
        | exact strCmpOrd_desc_asc _ _
        | exact numCmpOrd_desc_asc _ _
  · intro a b hab hsub
    exact List.pair_sublist_mergeSort (sortLe_trans k ord) (sortLe_total k ord)
      (decide_eq_true hab) hsub

/-- Witness for C4: a concrete ordered pair of records stays in order in
the sorted output. -/
theorem sortStep_sorts_stably_witness :
    [demoP2, demoP1].Sublist
      (sortStep (some SortKey.latitude) (some SortOrder.asc) [demoP2, demoP1]) :=
  (sortStep_sorts_stably SortKey.latitude (some SortOrder.asc) [demoP2, demoP1]).2.2.2.1
    demoP2 demoP1 (by decide) (List.Sublist.refl _)

/-- C9: applying the sort step of `fetchProjects` twice with the same key
and order yields the same sequence as applying it once — re-sorting an
already-sorted sequence is the identity (stable sort law). -/
theorem sortStep_idempotent (sortBy : Option SortKey) (ord : Option SortOrder)
    (l : List GeoProject) :
    sortStep sortBy ord (sortStep sortBy ord l) = sortStep sortBy ord l := by
  cases sortBy with
  | none => rfl
  | some k =>
    show (l.mergeSort _).mergeSort _ = l.mergeSort _
    exact List.mergeSort_of_sorted (List.sorted_mergeSort (sortLe_trans k ord) (sortLe_total k ord) l)

theorem sortStep_mem (sortBy : Option SortKey) (ord : Option SortOrder)
    (l : List GeoProject) (a : GeoProject) :
    a ∈ sortStep sortBy ord l ↔ a ∈ l := by
  cases sortBy with
  | none => exact Iff.rfl
  | some k => exact (List.mergeSort_perm l _).mem_iff

theorem sortStep_length (sortBy : Option SortKey) (ord : Option SortOrder)
    (l : List GeoProject) :
    (sortStep sortBy ord l).length = l.length := by
  cases sortBy with
  | none => rfl
  | some k => exact (List.mergeSort_perm l _).length_eq

/-- C1: for a filter text that is non-empty after trimming, every record in
the page returned by `fetchProjects` satisfies the case-insensitive
substring rule on `projectName`, `status` or `id` (so no non-matching record
appears); a whitespace-only or absent filter text leaves every record in
place — the filter step excludes nothing. -/
theorem fetchProjects_filter_sound (store : List GeoProject) (page pageSize : Nat)
    (sortBy : Option SortKey) (sortOrder : Option SortOrder) (ft : String) (r : GeoProject) :
    (trimStr ft ≠ "" →
      r ∈ (fetchProjects store page pageSize sortBy sortOrder (some ft)).data →
      matchesFilter (toLowerStr ft) r = true) ∧
    (trimStr ft = "" → filterStep (some ft) store = store) ∧
    filterStep none store = store := by
  refine ⟨?_, ?_, rfl⟩
  · intro hft hr
    have h1 : r ∈ sortStep sortBy sortOrder (filterStep (some ft) store) :=
      List.drop_subset _ _ (List.take_subset _ _ hr)
    have h2 : r ∈ filterStep (some ft) store := (sortStep_mem _ _ _ _).mp h1
    rw [filterStep, if_neg hft] at h2
    exact (List.mem_filter.mp h2).2
  · intro hft
    rw [filterStep, if_pos hft]

/-- Witness for C1: the matching record of the concrete store is reported
matching, and a whitespace-only filter keeps the whole store. -/
theorem fetchProjects_filter_sound_witness :
    matchesFilter (toLowerStr demoFilter) demoP1 = true ∧
    filterStep (some demoBlank) demoStore = demoStore :=
  ⟨(fetchProjects_filter_sound demoStore 1 50 none none demoFilter demoP1).1
      (by decide) (by decide),
   (fetchProjects_filter_sound demoStore 1 50 none none demoBlank demoP1).2.1 (by decide)⟩

/-- C2: for every store and every `page ≥ 1`, the `items` returned by
`fetchProjects` are exactly the slice `[(page-1)*pageSize, page*pageSize)`
of the filtered-and-sorted full sequence, clipped to its length, and
`items.length = min(pageSize, max(0, totalMatched - (page-1)*pageSize))`
where `totalMatched` is the returned total. -/
theorem fetchProjects_paginates (store : List GeoProject) (page pageSize : Nat)
    (sortBy : Option SortKey) (sortOrder : Option SortOrder) (filterText : Option String)
    (hpage : 1 ≤ page) :
    (fetchProjects store page pageSize sortBy sortOrder filterText).data =
      ((sortStep sortBy sortOrder (filterStep filterText store)).drop
        ((page - 1) * pageSize)).take pageSize ∧
    ((fetchProjects store page pageSize sortBy sortOrder filterText).data.length : Int) =
      min (pageSize : Int)
        (max 0
          (((fetchProjects store page pageSize sortBy sortOrder filterText).total : Int) -
            ((page : Int) - 1) * (pageSize : Int))) := by
  constructor
  · rfl
  · have hlen : (fetchProjects store page pageSize sortBy sortOrder filterText).data.length =
        min pageSize
          ((sortStep sortBy sortOrder (filterStep filterText store)).length -
            (page - 1) * pageSize) := by
      show (((sortStep sortBy sortOrder (filterStep filterText store)).drop
          ((page - 1) * pageSize)).take pageSize).length = _
      rw [List.length_take, List.length_drop]
    have htot : (fetchProjects store page pageSize sortBy sortOrder filterText).total =
        (sortStep sortBy sortOrder (filterStep filterText store)).length := rfl
    rw [hlen, htot]
    have hcast : (((page - 1) * pageSize : Nat) : Int) =
        ((page : Int) - 1) * (pageSize : Int) := by
      push_cast
      have hp : (((page - 1 : Nat)) : Int) = (page : Int) - 1 := by omega
      rw [hp]
    rw [← hcast]
    omega

/-- Witness for C2 at `page = 1`, `pageSize = 50` on the concrete store. -/
theorem fetchProjects_paginates_witness :
    (fetchProjects demoStore 1 50 none none none).data =
      ((sortStep none none (filterStep none demoStore)).drop ((1 - 1) * 50)).take 50 ∧
    ((fetchProjects demoStore 1 50 none none none).data.length : Int) =
      min ((50 : Nat) : Int)
        (max 0
          (((fetchProjects demoStore 1 50 none none none).total : Int) -
            (((1 : Nat) : Int) - 1) * ((50 : Nat) : Int))) :=
  fetchProjects_paginates demoStore 1 50 none none none (by decide)

/-- C5: when `page` exceeds the available pages of the filtered set — that
is, `(page-1)*pageSize` is at least the filtered length — `fetchProjects`
returns an empty `items` sequence while `totalMatched` still equals the
full count of filtered records; the function is total, so no failure is
raised. -/
theorem fetchProjects_out_of_range (store : List GeoProject) (page pageSize : Nat)
    (sortBy : Option SortKey) (sortOrder : Option SortOrder) (filterText : Option String)
    (hbeyond : (filterStep filterText store).length ≤ (page - 1) * pageSize) :
    (fetchProjects store page pageSize sortBy sortOrder filterText).data = [] ∧
    (fetchProjects store page pageSize sortBy sortOrder filterText).total =
      (filterStep filterText store).length := by
  constructor
  · show (((sortStep sortBy sortOrder (filterStep filterText store)).drop
        ((page - 1) * pageSize)).take pageSize) = []
    rw [List.drop_eq_nil_of_le, List.take_nil]
    rw [sortStep_length]
    exact hbeyond
  · exact sortStep_length _ _ _

/-- Witness for C5, the concrete scenario of the spec: 5000 unfiltered
records, `page = 101`, `pageSize = 50` yield empty `items` and
`total = 5000`. -/
theorem fetchProjects_out_of_range_witness :
    (fetchProjects demoStore5000 101 50 none none none).data = [] ∧
    (fetchProjects demoStore5000 101 50 none none none).total =
      (filterStep none demoStore5000).length :=
  fetchProjects_out_of_range demoStore5000 101 50 none none none
    (by
      show (List.replicate 5000 demoP1).length ≤ (101 - 1) * 50
      rw [List.length_replicate])

/-- C10: a call to `fetchProjects` leaves the cached record store
unchanged — when the cache holds `l`, the module state after the call is
exactly the state before, and the response is the pure query of `l`; the
first access from an empty cache installs the generated collection, which
every later query then observes as the same snapshot. -/
theorem fetchProjectsM_frame (gen : List GeoProject) (page pageSize : Nat)
    (sortBy : Option SortKey) (sortOrder : Option SortOrder) (filterText : Option String)
    (s : ApiState) (l : List GeoProject) (hc : s.cachedData = some l) :
    (fetchProjectsM gen page pageSize sortBy sortOrder filterText s).2 = s ∧
    (fetchProjectsM gen page pageSize sortBy sortOrder filterText s).1 =
      fetchProjects l page pageSize sortBy sortOrder filterText ∧
    (fetchProjectsM gen page pageSize sortBy sortOrder filterText
        { cachedData := none }).2 = { cachedData := some gen } ∧
    (fetchProjectsM gen page pageSize sortBy sortOrder filterText
        { cachedData := none }).1 =
      fetchProjects gen page pageSize sortBy sortOrder filterText := by
  obtain ⟨c⟩ := s
  simp only [ApiState.mk.injEq] at hc ⊢
  subst hc
  exact ⟨rfl, rfl, rfl, rfl⟩

/-- Witness for C10 at a concrete populated module state. -/
theorem fetchProjectsM_frame_witness :
    (fetchProjectsM demoStore5000 1 50 none none none demoApiState).2 = demoApiState ∧
    (fetchProjectsM demoStore5000 1 50 none none none demoApiState).1 =
      fetchProjects demoStore 1 50 none none none ∧
    (fetchProjectsM demoStore5000 1 50 none none none { cachedData := none }).2 =
      { cachedData := some demoStore5000 } ∧
    (fetchProjectsM demoStore5000 1 50 none none none { cachedData := none }).1 =
      fetchProjects demoStore5000 1 50 none none none :=
  fetchProjectsM_frame demoStore5000 1 50 none none none demoApiState demoStore rfl
